/-
Verification of the decoding and validation core of the glTF reader crate.

The embedding below models `src/validation.rs`, `src/animation/mod.rs` and
`src/skin.rs`. Rust panics (`unwrap` on a missing value, the `unreachable!`
arms of `read_outputs`) are modelled by the `Res.panic` outcome; a Rust
`Option` return value stays an `Option` inside `Res.ok`. The external json
schema crate (record definitions, the validation traversals) is not part of
the sources and is modelled from the spec where the claims need it.
-/
import Mathlib

namespace GltfSpec

/-- Outcome of running a piece of Rust code that may panic: either a panic
(`unwrap` on `None`, an `unreachable!` arm) or a normal return value. -/
inductive Res (α : Type) where
  | panic : Res α
  | ok : α → Res α
deriving DecidableEq, Repr

/-- Sequencing of possibly-panicking computations: a panic propagates. -/
def Res.bind {α β : Type} : Res α → (α → Res β) → Res β
  | .panic, _ => .panic
  | .ok a, f => f a

/-- Component data types of `accessor::DataType` (I8, U8, I16, U16, U32, F32). -/
inductive DataType where
  | i8 | u8 | i16 | u16 | u32 | f32
deriving DecidableEq, Repr

/-- Animated property of `json::animation::Property`. -/
inductive Property where
  | translation | rotation | scale | morphTargetWeights
deriving DecidableEq, Repr

/-- Keyframe interpolation algorithm of `json::animation::Interpolation`. -/
inductive Interpolation where
  | linear | step | cubicSpline
deriving DecidableEq, Repr

/-- Modelled from the spec: the external json record for a buffer, an opaque
byte source identified by its length. -/
structure BufferJson where
  byteLength : Nat
deriving DecidableEq, Repr

/-- Modelled from the spec: the external json record for a buffer view, a byte
range owned by the buffer it references by index. -/
structure ViewJson where
  buffer : Nat
deriving DecidableEq, Repr

/-- Modelled from the spec: the external json record for an accessor; only the
fields the readers consult (the buffer-view reference and the declared
component type) are carried. -/
structure AccessorJson where
  bufferView : Nat
  componentType : DataType
deriving DecidableEq, Repr

/-- Modelled from the spec: the external json record for a scene node; its
payload is opaque to the readers, only its identity matters here. -/
structure NodeJson where
  name : Option String
deriving DecidableEq, Repr

/-- `json::animation::Target`: a node index and a `Checked` property, `none`
standing for an invalid enum value that `unwrap` would panic on. -/
structure TargetJson where
  node : Nat
  path : Option Property
deriving DecidableEq, Repr

/-- `json::animation::Channel`: a sampler index and a target. -/
structure ChannelJson where
  sampler : Nat
  target : TargetJson
deriving DecidableEq, Repr

/-- `json::animation::Sampler`: input and output accessor indices and a
`Checked` interpolation. -/
structure SamplerJson where
  input : Nat
  output : Nat
  interpolation : Option Interpolation
deriving DecidableEq, Repr

/-- `json::animation::Animation`: the owned channel and sampler lists. -/
structure AnimationJson where
  channels : List ChannelJson
  samplers : List SamplerJson
deriving DecidableEq, Repr

/-- `json::skin::Skin`: optional inverse-bind-matrices accessor index, the
joint node indices, and the optional skeleton root node index. -/
structure SkinJson where
  inverse_bind_matrices : Option Nat
  joints : List Nat
  skeleton : Option Nat
deriving DecidableEq, Repr

/-- The parsed document: indexed collections of records, as the external
schema tree exposes them to this crate. -/
structure Document where
  buffers : List BufferJson
  views : List ViewJson
  accessors : List AccessorJson
  nodes : List NodeJson
  animations : List AnimationJson
  skins : List SkinJson
deriving DecidableEq, Repr

/-- The borrowed `Buffer` wrapper: parent document, index, json record. -/
structure Buffer where
  document : Document
  index : Nat
  json : BufferJson
deriving DecidableEq, Repr

/-- The borrowed `Accessor` wrapper. -/
structure Accessor where
  document : Document
  index : Nat
  json : AccessorJson
deriving DecidableEq, Repr

/-- The borrowed `Node` wrapper. -/
structure Node where
  document : Document
  index : Nat
  json : NodeJson
deriving DecidableEq, Repr

/-- The borrowed `Animation` wrapper. -/
structure Animation where
  document : Document
  index : Nat
  json : AnimationJson
deriving DecidableEq, Repr

/-- The borrowed `Channel` wrapper: parent animation and json record. -/
structure Channel where
  anim : Animation
  json : ChannelJson
deriving DecidableEq, Repr

/-- The borrowed `Sampler` wrapper. -/
structure Sampler where
  anim : Animation
  json : SamplerJson
deriving DecidableEq, Repr

/-- The borrowed `Target` wrapper. -/
structure Target where
  anim : Animation
  json : TargetJson
deriving DecidableEq, Repr

/-- The borrowed `Skin` wrapper. -/
structure Skin where
  document : Document
  index : Nat
  json : SkinJson
deriving DecidableEq, Repr

/-- The `Joints` iterator: the parent document and the joint indices not yet
visited (`slice::Iter` over the json joint list). -/
structure Joints where
  document : Document
  remaining : List Nat
deriving DecidableEq, Repr

/-- `Accessor::data_type`: the declared component type. -/
def Accessor.data_type (a : Accessor) : DataType :=
  a.json.componentType

/-- Modelled from the spec: `accessor.view().buffer()` of the external
accessor module — resolve the accessor's buffer view, then the view's owning
buffer; an out-of-bounds reference panics. -/
def Accessor.viewBuffer (a : Accessor) : Res Buffer :=
  match a.document.views.get? a.json.bufferView with
  | some v =>
    match a.document.buffers.get? v.buffer with
    | some bj => .ok ⟨a.document, v.buffer, bj⟩
    | none => .panic
  | none => .panic

/-- `Channel::sampler`: `self.anim.samplers().nth(self.json.sampler.value()).unwrap()`. -/
def Channel.sampler (c : Channel) : Res Sampler :=
  match c.anim.json.samplers.get? c.json.sampler with
  | some sj => .ok ⟨c.anim, sj⟩
  | none => .panic

/-- `Channel::target`: `Target::new(self.anim.clone(), &self.json.target)`. -/
def Channel.target (c : Channel) : Target :=
  ⟨c.anim, c.json.target⟩

/-- `Target::node`: `self.anim.document.nodes().nth(self.json.node.value()).unwrap()`. -/
def Target.node (t : Target) : Res Node :=
  match t.anim.document.nodes.get? t.json.node with
  | some nj => .ok ⟨t.anim.document, t.json.node, nj⟩
  | none => .panic

/-- `Target::property`: `self.json.path.unwrap()`. -/
def Target.property (t : Target) : Res Property :=
  match t.json.path with
  | some p => .ok p
  | none => .panic

/-- `Sampler::input`: `self.anim.document.accessors().nth(self.json.input.value()).unwrap()`. -/
def Sampler.input (s : Sampler) : Res Accessor :=
  match s.anim.document.accessors.get? s.json.input with
  | some aj => .ok ⟨s.anim.document, s.json.input, aj⟩
  | none => .panic

/-- `Sampler::output`: `self.anim.document.accessors().nth(self.json.output.value()).unwrap()`. -/
def Sampler.output (s : Sampler) : Res Accessor :=
  match s.anim.document.accessors.get? s.json.output with
  | some aj => .ok ⟨s.anim.document, s.json.output, aj⟩
  | none => .panic

/-- `Sampler::interpolation`: `self.json.interpolation.unwrap()`. -/
def Sampler.interpolation (s : Sampler) : Res Interpolation :=
  match s.json.interpolation with
  | some i => .ok i
  | none => .panic

/-- `Skin::inverse_bind_matrices`: map the optional accessor index through
`accessors().nth(i).unwrap()`. -/
def Skin.inverse_bind_matrices (s : Skin) : Res (Option Accessor) :=
  match s.json.inverse_bind_matrices with
  | none => .ok none
  | some i =>
    match s.document.accessors.get? i with
    | some aj => .ok (some ⟨s.document, i, aj⟩)
    | none => .panic

/-- `Skin::skeleton`: map the optional node index through
`nodes().nth(i).unwrap()`. -/
def Skin.skeleton (s : Skin) : Res (Option Node) :=
  match s.json.skeleton with
  | none => .ok none
  | some i =>
    match s.document.nodes.get? i with
    | some nj => .ok (some ⟨s.document, i, nj⟩)
    | none => .panic

/-- `Skin::joints`: an iterator over the skin's joint index list. -/
def Skin.joints (s : Skin) : Joints :=
  ⟨s.document, s.json.joints⟩

/-- `Joints::next`: `self.iter.next().map(|index| self.document.nodes().nth(index.value()).unwrap())`. -/
def Joints.next (j : Joints) : Res (Option (Node × Joints)) :=
  match j.remaining with
  | [] => .ok none
  | i :: rest =>
    match j.document.nodes.get? i with
    | some nj => .ok (some (⟨j.document, i, nj⟩, ⟨j.document, rest⟩))
    | none => .panic

/-- Resolve a joint index list against the document's node table, as draining
the `Joints` iterator does; the first out-of-range index panics. -/
def drainJoints (d : Document) : List Nat → Res (List Node)
  | [] => .ok []
  | i :: rest =>
    match d.nodes.get? i with
    | some nj => Res.bind (drainJoints d rest) (fun l => .ok (⟨d, i, nj⟩ :: l))
    | none => .panic

/-- All nodes yielded by repeatedly calling `Joints::next` until exhaustion. -/
def Joints.drain (j : Joints) : Res (List Node) :=
  drainJoints j.document j.remaining

/-- `accessor::Iter::new(accessor, slice)`: the lazy typed sequence, carrying
the accessor record and the resolved byte slice. -/
structure Iter where
  accessor : Accessor
  slice : List Nat
deriving DecidableEq, Repr

/-- `util::Rotations`: rotation outputs tagged by component type. -/
inductive Rotations where
  | i8 : Iter → Rotations
  | u8 : Iter → Rotations
  | i16 : Iter → Rotations
  | u16 : Iter → Rotations
  | f32 : Iter → Rotations
deriving DecidableEq, Repr

/-- `util::MorphTargetWeights`: morph-target-weight outputs tagged by
component type. -/
inductive MorphTargetWeights where
  | i8 : Iter → MorphTargetWeights
  | u8 : Iter → MorphTargetWeights
  | i16 : Iter → MorphTargetWeights
  | u16 : Iter → MorphTargetWeights
  | f32 : Iter → MorphTargetWeights
deriving DecidableEq, Repr

/-- `util::ReadOutputs`: the tagged union returned by `read_outputs`. -/
inductive ReadOutputs where
  | translations : Iter → ReadOutputs
  | rotations : Rotations → ReadOutputs
  | scales : Iter → ReadOutputs
  | morphTargetWeights : MorphTargetWeights → ReadOutputs
deriving DecidableEq, Repr

/-- The animation channel `Reader`: the channel and the injected buffer
resolver closure. -/
structure Reader where
  channel : Channel
  get_buffer_data : Buffer → Option (List Nat)

/-- The skin `Reader` of `src/skin.rs`. -/
structure SkinReader where
  skin : Skin
  get_buffer_data : Buffer → Option (List Nat)

/-- `Channel::reader`: builds the reader record; no lookup, no resolver call. -/
def Channel.reader (c : Channel) (get_buffer_data : Buffer → Option (List Nat)) : Reader :=
  ⟨c, get_buffer_data⟩

/-- `Skin::reader`: builds the reader record; no lookup, no resolver call. -/
def Skin.reader (s : Skin) (get_buffer_data : Buffer → Option (List Nat)) : SkinReader :=
  ⟨s, get_buffer_data⟩

/-- `Reader::read_inputs`: resolve the sampler's input accessor's buffer, ask
the resolver for its bytes, and wrap them into a typed iterator; a resolver
miss returns `None`. The source recomputes `self.channel.sampler().input()`
inside the `Some` arm, and so does this embedding. -/
def Reader.read_inputs (r : Reader) : Res (Option Iter) :=
  Res.bind r.channel.sampler fun s =>
  Res.bind s.input fun inp =>
  Res.bind inp.viewBuffer fun buffer =>
  match r.get_buffer_data buffer with
  | some slice =>
    Res.bind r.channel.sampler fun s2 =>
    Res.bind s2.input fun inp2 =>
    .ok (some ⟨inp2, slice⟩)
  | none => .ok none

/-- `Reader::read_outputs`: resolve the sampler's output accessor's buffer,
ask the resolver for its bytes, then dispatch on the target property and, for
rotations and morph-target weights, on the declared component type; the
`unreachable!` arms for U32 are panics. A resolver miss returns `None`. -/
def Reader.read_outputs (r : Reader) : Res (Option ReadOutputs) :=
  Res.bind r.channel.sampler fun s =>
  Res.bind s.output fun output =>
  Res.bind output.viewBuffer fun buffer =>
  match r.get_buffer_data buffer with
  | some slice =>
    Res.bind (r.channel.target).property fun p =>
    match p with
    | .translation => .ok (some (.translations ⟨output, slice⟩))
    | .rotation =>
      match output.data_type with
      | .i8 => .ok (some (.rotations (.i8 ⟨output, slice⟩)))
      | .u8 => .ok (some (.rotations (.u8 ⟨output, slice⟩)))
      | .i16 => .ok (some (.rotations (.i16 ⟨output, slice⟩)))
      | .u16 => .ok (some (.rotations (.u16 ⟨output, slice⟩)))
      | .f32 => .ok (some (.rotations (.f32 ⟨output, slice⟩)))
      | .u32 => .panic
    | .scale => .ok (some (.scales ⟨output, slice⟩))
    | .morphTargetWeights =>
      match output.data_type with
      | .i8 => .ok (some (.morphTargetWeights (.i8 ⟨output, slice⟩)))
      | .u8 => .ok (some (.morphTargetWeights (.u8 ⟨output, slice⟩)))
      | .i16 => .ok (some (.morphTargetWeights (.i16 ⟨output, slice⟩)))
      | .u16 => .ok (some (.morphTargetWeights (.u16 ⟨output, slice⟩)))
      | .f32 => .ok (some (.morphTargetWeights (.f32 ⟨output, slice⟩)))
      | .u32 => .panic
  | none => .ok none

/-- `Reader::read_inputs` instrumented with the list of buffers passed to the
resolver closure, in call order; identical control flow to `read_inputs`. -/
def Reader.read_inputs_trace (r : Reader) : Res (Option Iter × List Buffer) :=
  Res.bind r.channel.sampler fun s =>
  Res.bind s.input fun inp =>
  Res.bind inp.viewBuffer fun buffer =>
  match r.get_buffer_data buffer with
  | some slice =>
    Res.bind r.channel.sampler fun s2 =>
    Res.bind s2.input fun inp2 =>
    .ok (some ⟨inp2, slice⟩, [buffer])
  | none => .ok (none, [buffer])

/-- `Reader::read_outputs` instrumented with the list of buffers passed to
the resolver closure, in call order; identical control flow to
`read_outputs`. -/
def Reader.read_outputs_trace (r : Reader) : Res (Option ReadOutputs × List Buffer) :=
  Res.bind r.channel.sampler fun s =>
  Res.bind s.output fun output =>
  Res.bind output.viewBuffer fun buffer =>
  match r.get_buffer_data buffer with
  | some slice =>
    Res.bind (r.channel.target).property fun p =>
    match p with
    | .translation => .ok (some (.translations ⟨output, slice⟩), [buffer])
    | .rotation =>
      match output.data_type with
      | .i8 => .ok (some (.rotations (.i8 ⟨output, slice⟩)), [buffer])
      | .u8 => .ok (some (.rotations (.u8 ⟨output, slice⟩)), [buffer])
      | .i16 => .ok (some (.rotations (.i16 ⟨output, slice⟩)), [buffer])
      | .u16 => .ok (some (.rotations (.u16 ⟨output, slice⟩)), [buffer])
      | .f32 => .ok (some (.rotations (.f32 ⟨output, slice⟩)), [buffer])
      | .u32 => .panic
    | .scale => .ok (some (.scales ⟨output, slice⟩), [buffer])
    | .morphTargetWeights =>
      match output.data_type with
      | .i8 => .ok (some (.morphTargetWeights (.i8 ⟨output, slice⟩)), [buffer])
      | .u8 => .ok (some (.morphTargetWeights (.u8 ⟨output, slice⟩)), [buffer])
      | .i16 => .ok (some (.morphTargetWeights (.i16 ⟨output, slice⟩)), [buffer])
      | .u16 => .ok (some (.morphTargetWeights (.u16 ⟨output, slice⟩)), [buffer])
      | .f32 => .ok (some (.morphTargetWeights (.f32 ⟨output, slice⟩)), [buffer])
      | .u32 => .panic
  | none => .ok (none, [buffer])

/-- `skin::Reader::read_inverse_bind_matrices`: if the skin declares an
inverse-bind-matrices accessor and the resolver supplies its buffer's bytes,
wrap them into a typed iterator; in every other non-panicking case return
`None`. -/
def SkinReader.read_inverse_bind_matrices (r : SkinReader) : Res (Option Iter) :=
  Res.bind r.skin.inverse_bind_matrices fun oacc =>
  match oacc with
  | some accessor =>
    Res.bind accessor.viewBuffer fun buffer =>
    match r.get_buffer_data buffer with
    | some slice => .ok (some ⟨accessor, slice⟩)
    | none => .ok none
  | none => .ok none

/-- `skin::Reader::read_inverse_bind_matrices` instrumented with the list of
buffers passed to the resolver closure; identical control flow. -/
def SkinReader.read_inverse_bind_matrices_trace (r : SkinReader) :
    Res (Option Iter × List Buffer) :=
  Res.bind r.skin.inverse_bind_matrices fun oacc =>
  match oacc with
  | some accessor =>
    Res.bind accessor.viewBuffer fun buffer =>
    match r.get_buffer_data buffer with
    | some slice => .ok (some ⟨accessor, slice⟩, [buffer])
    | none => .ok (none, [buffer])
  | none => .ok (none, [])

/-- Whether a target property together with an output component type reaches
a non-panicking arm of `read_outputs`: translation and scale always do, while
rotation and morph-target weights require one of the five quantized or float
component types. -/
def legalOutput (p : Property) (dt : DataType) : Bool :=
  match p with
  | .translation => true
  | .scale => true
  | .rotation =>
    match dt with
    | .u32 => false
    | _ => true
  | .morphTargetWeights =>
    match dt with
    | .u32 => false
    | _ => true

/-- Modelled from the spec: `json::Path`, an ordered sequence of path
segments identifying a location in the schema tree. -/
structure Path where
  segments : List String
deriving DecidableEq, Repr

/-- Modelled from the spec: `json::validation::Error`, the violation kind of
a single reported error. -/
inductive VError where
  | indexOutOfBounds
  | invalidValue
  | missingData
  | invalidSemantics
deriving DecidableEq, Repr

/-- Modelled from the spec: the external `json::Root`. The json crate's two
validation traversals are not part of this crate's sources; a root is
modelled by the ordered lists of `(Path, Error)` pairs each traversal emits
through the callback handed to it — `minimalEmitted` by
`json.validate_minimally`, `completeEmitted` by `json.validate_completely`. -/
structure Root where
  minimalEmitted : List (Path × VError)
  completeEmitted : List (Path × VError)
deriving DecidableEq, Repr

/-- The `Gltf` value wrapping the parsed json root. -/
structure Gltf where
  root : Root
deriving DecidableEq, Repr

/-- `Unvalidated`: glTF that has not been validated yet. -/
structure Unvalidated where
  gltf : Gltf
deriving DecidableEq, Repr

/-- `validation::Error`: the batched list of collected `(Path, Error)`
pairs. -/
structure Error where
  errs : List (Path × VError)
deriving DecidableEq, Repr

/-- `Unvalidated::as_json`: the unvalidated JSON root. -/
def Unvalidated.as_json (u : Unvalidated) : Root :=
  u.gltf.root

/-- `Unvalidated::validate_minimally`: run the minimal traversal with a
callback pushing every `(path, err)` pair onto `errs`; return the document
when `errs` is empty, otherwise the whole batch. -/
def Unvalidated.validate_minimally (u : Unvalidated) : Except Error Gltf :=
  let errs := u.as_json.minimalEmitted
  if errs.isEmpty then .ok u.gltf else .error ⟨errs⟩

/-- `Unvalidated::validate_completely`: run the minimal traversal and then
the complete traversal, both pushing onto the same `errs` vector; return the
document when `errs` is empty, otherwise the whole batch. -/
def Unvalidated.validate_completely (u : Unvalidated) : Except Error Gltf :=
  let errs := u.as_json.minimalEmitted ++ u.as_json.completeEmitted
  if errs.isEmpty then .ok u.gltf else .error ⟨errs⟩

/-- The error list a validation entry point reported: the batch on failure,
nothing on success. -/
def errList (r : Except Error Gltf) : List (Path × VError) :=
  match r with
  | .error e => e.errs
  | .ok _ => []

/-- Concrete sampler whose input and output accessors are both accessor 0
(component type F32). -/
def samplerF32 : SamplerJson :=
  ⟨0, 0, some .linear⟩

/-- Concrete sampler whose output is accessor 1 (component type U32). -/
def samplerU32 : SamplerJson :=
  ⟨0, 1, some .linear⟩

/-- Concrete sampler whose output is accessor 2 (component type I8). -/
def samplerI8 : SamplerJson :=
  ⟨0, 2, some .linear⟩

/-- Concrete example animation: three samplers and four channels covering the
translation, rotation and morph-target-weight properties. -/
def animJsonEx : AnimationJson :=
  ⟨[⟨0, ⟨0, some .translation⟩⟩, ⟨1, ⟨0, some .rotation⟩⟩,
    ⟨1, ⟨0, some .morphTargetWeights⟩⟩, ⟨2, ⟨0, some .rotation⟩⟩],
   [samplerF32, samplerU32, samplerI8]⟩

/-- Concrete example document: one buffer, one view into it, F32, U32 and I8
accessors, one node, the example animation, and two skins (one with an
inverse-bind-matrices accessor, one without). -/
def docEx : Document :=
  ⟨[⟨16⟩], [⟨0⟩], [⟨0, .f32⟩, ⟨0, .u32⟩, ⟨0, .i8⟩], [⟨none⟩], [animJsonEx],
   [⟨none, [0], none⟩, ⟨some 0, [0, 0], some 0⟩]⟩

/-- The example animation wrapper. -/
def animEx : Animation :=
  ⟨docEx, 0, animJsonEx⟩

/-- Channel 0 of the example animation (translation, F32 output). -/
def chTransEx : Channel :=
  ⟨animEx, ⟨0, ⟨0, some .translation⟩⟩⟩

/-- Channel 1 of the example animation (rotation, U32 output). -/
def chRotU32Ex : Channel :=
  ⟨animEx, ⟨1, ⟨0, some .rotation⟩⟩⟩

/-- Channel 2 of the example animation (morph-target weights, U32 output). -/
def chMorphU32Ex : Channel :=
  ⟨animEx, ⟨1, ⟨0, some .morphTargetWeights⟩⟩⟩

/-- Channel 3 of the example animation (rotation, I8 output). -/
def chRotI8Ex : Channel :=
  ⟨animEx, ⟨2, ⟨0, some .rotation⟩⟩⟩

/-- The F32 accessor wrapper of the example document. -/
def accF32Ex : Accessor :=
  ⟨docEx, 0, ⟨0, .f32⟩⟩

/-- The I8 accessor wrapper of the example document. -/
def accI8Ex : Accessor :=
  ⟨docEx, 2, ⟨0, .i8⟩⟩

/-- The example skin without an inverse-bind-matrices accessor. -/
def skinNoIbmEx : Skin :=
  ⟨docEx, 0, ⟨none, [0], none⟩⟩

/-- The example skin with inverse-bind-matrices accessor 0. -/
def skinIbmEx : Skin :=
  ⟨docEx, 1, ⟨some 0, [0, 0], some 0⟩⟩

/-- A resolver that supplies four bytes for every buffer. -/
def getSomeEx : Buffer → Option (List Nat) :=
  fun _ => some [1, 2, 3, 4]

/-- A resolver that never supplies bytes. -/
def getNoneEx : Buffer → Option (List Nat) :=
  fun _ => none

/-- The buffer wrapper the example accessors resolve to. -/
def bufEx : Buffer :=
  ⟨docEx, 0, ⟨16⟩⟩

/-- A channel of the example animation whose sampler index 5 is out of
range. -/
def chBadEx : Channel :=
  ⟨animEx, ⟨5, ⟨0, some .translation⟩⟩⟩

/-- A target of the example animation whose property field holds an invalid
enum value. -/
def targetBadEx : Target :=
  ⟨animEx, ⟨0, none⟩⟩

/-- A joints iterator over the example document whose next index 7 is out of
range. -/
def jointsBadEx : Joints :=
  ⟨docEx, [7]⟩

/-- A concrete root whose minimal traversal emits one violation and whose
complete traversal emits another. -/
def rootErrEx : Root :=
  ⟨[(⟨["animations"]⟩, .indexOutOfBounds)], [(⟨["accessors"]⟩, .invalidSemantics)]⟩

/-- A concrete unvalidated document carrying `rootErrEx`. -/
def uErrEx : Unvalidated :=
  ⟨⟨rootErrEx⟩⟩

/-- A concrete unvalidated document whose traversals emit no violation. -/
def uOkEx : Unvalidated :=
  ⟨⟨⟨[], []⟩⟩⟩

theorem Res.bind_ok {α β : Type} (a : α) (f : α → Res β) :
    Res.bind (.ok a) f = f a := rfl

theorem Res.bind_panic {α β : Type} (f : α → Res β) :
    Res.bind (.panic : Res α) f = .panic := rfl

/-- Claim C1: `validate_minimally` (and `validate_completely`) returns `Ok`
with the document exactly when the traversal collected zero violations, and
otherwise returns a single `Err` with every collected `(Path, error)` pair of
the completed pass — never a partial result. -/
theorem claim_C1_validation_batched (u : Unvalidated) :
    (u.validate_minimally = .ok u.gltf ↔ u.as_json.minimalEmitted = []) ∧
    (u.as_json.minimalEmitted ≠ [] →
      u.validate_minimally = .error ⟨u.as_json.minimalEmitted⟩) ∧
    (u.validate_completely = .ok u.gltf ↔
      u.as_json.minimalEmitted ++ u.as_json.completeEmitted = []) ∧
    (u.as_json.minimalEmitted ++ u.as_json.completeEmitted ≠ [] →
      u.validate_completely =
        .error ⟨u.as_json.minimalEmitted ++ u.as_json.completeEmitted⟩) := by
  refine ⟨?_, ?_, ?_, ?_⟩
  · by_cases h : u.as_json.minimalEmitted = [] <;>
      simp [Unvalidated.validate_minimally, h]
  · intro h
    simp [Unvalidated.validate_minimally, h]
  · by_cases h : u.as_json.minimalEmitted ++ u.as_json.completeEmitted = [] <;>
      simp [Unvalidated.validate_completely, h]
  · intro h
    simp [Unvalidated.validate_completely, h]

/-- Witness for C1: on a document with an emitted violation the minimal pass
returns the full batch, and on a clean document it returns `Ok`. -/
theorem claim_C1_validation_batched_witness :
    uErrEx.validate_minimally =
      .error ⟨[(⟨["animations"]⟩, .indexOutOfBounds)]⟩ ∧
    uOkEx.validate_minimally = .ok uOkEx.gltf := by
  constructor
  · exact (claim_C1_validation_batched uErrEx).2.1 (by decide)
  · exact (claim_C1_validation_batched uOkEx).1.mpr (by decide)

/-- Claim C5: the error list of `validate_completely` is the error list of
`validate_minimally` followed by the complete-pass emissions, so the complete
pass fails whenever the minimal pass does. -/
theorem claim_C5_complete_extends_minimal (u : Unvalidated) :
    errList u.validate_completely =
      errList u.validate_minimally ++ u.as_json.completeEmitted ∧
    ((∃ e, u.validate_minimally = .error e) →
      ∃ e2, u.validate_completely = .error e2) := by
  constructor
  · by_cases h : u.as_json.minimalEmitted = [] <;>
      by_cases h2 : u.as_json.completeEmitted = [] <;>
      simp [Unvalidated.validate_minimally, Unvalidated.validate_completely,
        errList, h, h2]
  · rintro ⟨e, he⟩
    by_cases h : u.as_json.minimalEmitted = []
    · simp [Unvalidated.validate_minimally, h] at he
    · refine ⟨⟨u.as_json.minimalEmitted ++ u.as_json.completeEmitted⟩, ?_⟩
      simp [Unvalidated.validate_completely, h]

/-- Witness for C5: on `uErrEx` both conjuncts hold at a concrete input. -/
theorem claim_C5_complete_extends_minimal_witness :
    errList uErrEx.validate_completely =
      errList uErrEx.validate_minimally ++ uErrEx.as_json.completeEmitted ∧
    (∃ e2, uErrEx.validate_completely = .error e2) := by
  refine ⟨(claim_C5_complete_extends_minimal uErrEx).1, ?_⟩
  exact (claim_C5_complete_extends_minimal uErrEx).2
    ⟨⟨[(⟨["animations"]⟩, .indexOutOfBounds)]⟩, rfl⟩

/-- Claim C8: validation is deterministic — both passes are functions of the
unmodified document alone, so two runs over the same document return the same
outcome, error lists in the same order included. -/
theorem claim_C8_validation_deterministic (u1 u2 : Unvalidated)
    (h : u1.gltf = u2.gltf) :
    u1.validate_minimally = u2.validate_minimally ∧
    u1.validate_completely = u2.validate_completely := by
  constructor <;>
    simp [Unvalidated.validate_minimally, Unvalidated.validate_completely,
      Unvalidated.as_json, h]

/-- Witness for C8: two runs over the concrete `uErrEx` agree. -/
theorem claim_C8_validation_deterministic_witness :
    uErrEx.validate_minimally = uErrEx.validate_minimally ∧
    uErrEx.validate_completely = uErrEx.validate_completely :=
  claim_C8_validation_deterministic uErrEx uErrEx rfl

/-- Claim C9: every index- or optional-field-resolving accessor method
(`Channel::sampler`, `Sampler::input`, `Sampler::output`, `Target::node`,
`Target::property`, `Sampler::interpolation`, `Skin::inverse_bind_matrices`,
`Skin::skeleton`, `Joints::next`) unwraps its lookup: when the index is in
bounds or the field present it returns the record at that index, and when
the lookup misses it panics instead of returning an error. -/
theorem claim_C9_unwrap_semantics :
    (∀ (c : Channel) (sj : SamplerJson),
      c.anim.json.samplers.get? c.json.sampler = some sj →
        c.sampler = .ok ⟨c.anim, sj⟩) ∧
    (∀ c : Channel,
      c.anim.json.samplers.get? c.json.sampler = none → c.sampler = .panic) ∧
    (∀ (s : Sampler) (aj : AccessorJson),
      s.anim.document.accessors.get? s.json.input = some aj →
        s.input = .ok ⟨s.anim.document, s.json.input, aj⟩) ∧
    (∀ s : Sampler,
      s.anim.document.accessors.get? s.json.input = none → s.input = .panic) ∧
    (∀ (s : Sampler) (aj : AccessorJson),
      s.anim.document.accessors.get? s.json.output = some aj →
        s.output = .ok ⟨s.anim.document, s.json.output, aj⟩) ∧
    (∀ s : Sampler,
      s.anim.document.accessors.get? s.json.output = none → s.output = .panic) ∧
    (∀ (t : Target) (nj : NodeJson),
      t.anim.document.nodes.get? t.json.node = some nj →
        t.node = .ok ⟨t.anim.document, t.json.node, nj⟩) ∧
    (∀ t : Target,
      t.anim.document.nodes.get? t.json.node = none → t.node = .panic) ∧
    (∀ (t : Target) (p : Property), t.json.path = some p → t.property = .ok p) ∧
    (∀ t : Target, t.json.path = none → t.property = .panic) ∧
    (∀ (s : Sampler) (i : Interpolation),
      s.json.interpolation = some i → s.interpolation = .ok i) ∧
    (∀ s : Sampler, s.json.interpolation = none → s.interpolation = .panic) ∧
    (∀ sk : Skin, sk.json.inverse_bind_matrices = none →
        sk.inverse_bind_matrices = .ok none) ∧
    (∀ (sk : Skin) (i : Nat) (aj : AccessorJson),
      sk.json.inverse_bind_matrices = some i →
        sk.document.accessors.get? i = some aj →
          sk.inverse_bind_matrices = .ok (some ⟨sk.document, i, aj⟩)) ∧
    (∀ (sk : Skin) (i : Nat),
      sk.json.inverse_bind_matrices = some i →
        sk.document.accessors.get? i = none →
          sk.inverse_bind_matrices = .panic) ∧
    (∀ sk : Skin, sk.json.skeleton = none → sk.skeleton = .ok none) ∧
    (∀ (sk : Skin) (i : Nat) (nj : NodeJson),
      sk.json.skeleton = some i → sk.document.nodes.get? i = some nj →
        sk.skeleton = .ok (some ⟨sk.document, i, nj⟩)) ∧
    (∀ (sk : Skin) (i : Nat),
      sk.json.skeleton = some i → sk.document.nodes.get? i = none →
        sk.skeleton = .panic) ∧
    (∀ j : Joints, j.remaining = [] → j.next = .ok none) ∧
    (∀ (j : Joints) (i : Nat) (rest : List Nat) (nj : NodeJson),
      j.remaining = i :: rest → j.document.nodes.get? i = some nj →
        j.next = .ok (some (⟨j.document, i, nj⟩, ⟨j.document, rest⟩))) ∧
    (∀ (j : Joints) (i : Nat) (rest : List Nat),
      j.remaining = i :: rest → j.document.nodes.get? i = none →
        j.next = .panic) := by
  refine ⟨?_, ?_, ?_, ?_, ?_, ?_, ?_, ?_, ?_, ?_, ?_, ?_, ?_, ?_, ?_, ?_,
    ?_, ?_, ?_, ?_, ?_⟩ <;>
    intros <;>
    simp_all [Channel.sampler, Sampler.input, Sampler.output, Target.node,
      Target.property, Sampler.interpolation, Skin.inverse_bind_matrices,
      Skin.skeleton, Joints.next, List.getElem?_eq_none]

/-- Witness for C9: the unwrap semantics evaluated at concrete inputs — an
in-bounds sampler lookup, an out-of-range sampler lookup, an invalid
property enum, and an out-of-range joint index. -/
theorem claim_C9_unwrap_semantics_witness :
    chTransEx.sampler = .ok ⟨animEx, samplerF32⟩ ∧
    chBadEx.sampler = .panic ∧
    targetBadEx.property = .panic ∧
    jointsBadEx.next = .panic := by
  obtain ⟨h1, h2, _, _, _, _, _, _, _, h10, _, _, _, _, _, _, _, _, _, _,
    h21⟩ := claim_C9_unwrap_semantics
  exact ⟨h1 chTransEx samplerF32 (by decide), h2 chBadEx (by decide),
    h10 targetBadEx (by decide), h21 jointsBadEx 7 [] (by decide) (by decide)⟩

theorem drainJoints_ok (d : Document) (l : List Nat)
    (h : ∀ i ∈ l, i < d.nodes.length) :
    drainJoints d l = .ok (l.map fun i => ⟨d, i, d.nodes.getD i ⟨none⟩⟩) := by
  induction l with
  | nil => rfl
  | cons i rest ih =>
    have hi : i < d.nodes.length := h i (by simp)
    have hrest : ∀ x ∈ rest, x < d.nodes.length := fun x hx => h x (by simp [hx])
    have hg : d.nodes.get? i = some (d.nodes.getD i ⟨none⟩) := by
      rw [List.get?_eq_getElem?, List.getD_eq_getElem d.nodes ⟨none⟩ hi,
        List.getElem?_eq_getElem hi]
    simp only [drainJoints, List.map_cons]
    rw [hg, ih hrest]
    rfl

/-- Claim C7: for a skin whose joint indices are all within the node table,
draining the `Joints` iterator yields exactly one node per joint-list entry,
in list order, the i-th being the node record at the i-th joint index; an
out-of-range joint index makes `Joints::next` panic rather than skip. -/
theorem claim_C7_joints_resolve_in_order (s : Skin)
    (h : ∀ i ∈ s.json.joints, i < s.document.nodes.length) :
    (s.joints).drain =
      .ok (s.json.joints.map fun i => ⟨s.document, i, s.document.nodes.getD i ⟨none⟩⟩) ∧
    (∀ (j : Joints) (i : Nat) (rest : List Nat),
      j.remaining = i :: rest → j.document.nodes.length ≤ i →
        j.next = .panic) := by
  constructor
  · exact drainJoints_ok s.document s.json.joints h
  · intro j i rest hr hlen
    have hg : j.document.nodes[i]? = none := List.getElem?_eq_none hlen
    simp [Joints.next, hr, hg]

/-- Witness for C7: the two-joint example skin drains to the node record at
index 0 twice, and an out-of-range joints iterator panics. -/
theorem claim_C7_joints_resolve_in_order_witness :
    (skinIbmEx.joints).drain =
      .ok [⟨docEx, 0, ⟨none⟩⟩, ⟨docEx, 0, ⟨none⟩⟩] ∧
    jointsBadEx.next = .panic := by
  obtain ⟨h1, h2⟩ := claim_C7_joints_resolve_in_order skinIbmEx (by decide)
  exact ⟨h1, h2 jointsBadEx 7 [] rfl (by decide)⟩

theorem read_inputs_trace_sound (r : Reader) (v : Option Iter) (l : List Buffer)
    (h : r.read_inputs_trace = .ok (v, l)) : r.read_inputs = .ok v := by
  unfold Reader.read_inputs_trace at h
  unfold Reader.read_inputs
  cases h1 : r.channel.sampler <;> simp only [h1, Res.bind] at h ⊢
  · simp at h
  case ok s =>
  cases h2 : s.input <;> simp only [h2, Res.bind] at h ⊢
  · simp at h
  case ok inp =>
  cases h3 : inp.viewBuffer <;> simp only [h3, Res.bind] at h ⊢
  · simp at h
  case ok b =>
  cases h4 : r.get_buffer_data b <;> simp only [h4] at h ⊢
  · simp_all
  · simp_all [h1, h2, Res.bind]

theorem read_outputs_trace_sound (r : Reader) (v : Option ReadOutputs)
    (l : List Buffer) (h : r.read_outputs_trace = .ok (v, l)) :
    r.read_outputs = .ok v := by
  unfold Reader.read_outputs_trace at h
  unfold Reader.read_outputs
  cases h1 : r.channel.sampler <;> simp only [h1, Res.bind] at h ⊢
  · simp at h
  case ok s =>
  cases h2 : s.output <;> simp only [h2, Res.bind] at h ⊢
  · simp at h
  case ok output =>
  cases h3 : output.viewBuffer <;> simp only [h3, Res.bind] at h ⊢
  · simp at h
  case ok b =>
  cases h4 : r.get_buffer_data b <;> simp only [h4] at h ⊢
  · simp_all
  case some slice =>
  cases h5 : (r.channel.target).property <;> simp only [h5, Res.bind] at h ⊢
  · simp at h
  case ok p =>
  cases p <;> try simp_all
  · cases h6 : output.data_type <;> simp_all
  · cases h6 : output.data_type <;> simp_all

theorem read_ibm_trace_sound (r : SkinReader) (v : Option Iter)
    (l : List Buffer)
    (h : r.read_inverse_bind_matrices_trace = .ok (v, l)) :
    r.read_inverse_bind_matrices = .ok v := by
  unfold SkinReader.read_inverse_bind_matrices_trace at h
  unfold SkinReader.read_inverse_bind_matrices
  cases h1 : r.skin.inverse_bind_matrices <;> simp only [h1, Res.bind] at h ⊢
  · simp at h
  case ok oacc =>
  cases oacc with
  | none => simp_all
  | some accessor =>
    cases h2 : accessor.viewBuffer <;> simp only [h2, Res.bind] at h ⊢
    · simp at h
    case ok b =>
    cases h3 : r.get_buffer_data b <;> simp_all

/-- Claim C10: `Channel::reader` and `Skin::reader` are plain record
constructions that always succeed and never invoke the resolver closure; the
resolver is invoked only inside the read methods, exactly once per buffer
that call needs — once on the input (resp. output, inverse-bind-matrices)
accessor's buffer, and zero times when the skin declares no
inverse-bind-matrices accessor. The trace-instrumented definitions agree
with the plain read methods on their returned value. -/
theorem claim_C10_reader_construction_resolver_calls :
    (∀ (c : Channel) (f : Buffer → Option (List Nat)), c.reader f = ⟨c, f⟩) ∧
    (∀ (s : Skin) (f : Buffer → Option (List Nat)), s.reader f = ⟨s, f⟩) ∧
    (∀ (c : Channel) (f g : Buffer → Option (List Nat)),
      (c.reader f).channel = (c.reader g).channel) ∧
    (∀ (s : Skin) (f g : Buffer → Option (List Nat)),
      (s.reader f).skin = (s.reader g).skin) ∧
    (∀ (r : Reader) (s : Sampler) (inp : Accessor) (b : Buffer),
      r.channel.sampler = .ok s → s.input = .ok inp → inp.viewBuffer = .ok b →
        ∃ v, r.read_inputs_trace = .ok (v, [b])) ∧
    (∀ (r : Reader) (s : Sampler) (out : Accessor) (b : Buffer) (p : Property),
      r.channel.sampler = .ok s → s.output = .ok out → out.viewBuffer = .ok b →
        (r.channel.target).property = .ok p →
          legalOutput p out.data_type = true →
            ∃ v, r.read_outputs_trace = .ok (v, [b])) ∧
    (∀ r : SkinReader, r.skin.inverse_bind_matrices = .ok none →
        r.read_inverse_bind_matrices_trace = .ok (none, [])) ∧
    (∀ (r : SkinReader) (acc : Accessor) (b : Buffer),
      r.skin.inverse_bind_matrices = .ok (some acc) → acc.viewBuffer = .ok b →
        ∃ v, r.read_inverse_bind_matrices_trace = .ok (v, [b])) ∧
    (∀ (r : Reader) (v : Option Iter) (l : List Buffer),
      r.read_inputs_trace = .ok (v, l) → r.read_inputs = .ok v) ∧
    (∀ (r : Reader) (v : Option ReadOutputs) (l : List Buffer),
      r.read_outputs_trace = .ok (v, l) → r.read_outputs = .ok v) ∧
    (∀ (r : SkinReader) (v : Option Iter) (l : List Buffer),
      r.read_inverse_bind_matrices_trace = .ok (v, l) →
        r.read_inverse_bind_matrices = .ok v) := by
  refine ⟨fun c f => rfl, fun s f => rfl, fun c f g => rfl, fun s f g => rfl,
    ?_, ?_, ?_, ?_, read_inputs_trace_sound, read_outputs_trace_sound,
    read_ibm_trace_sound⟩
  · intro r s inp b h1 h2 h3
    unfold Reader.read_inputs_trace
    cases h4 : r.get_buffer_data b
    · exact ⟨none, by simp [h1, h2, h3, h4, Res.bind]⟩
    case some slice =>
      exact ⟨some ⟨inp, slice⟩, by simp [h1, h2, h3, h4, Res.bind]⟩
  · intro r s out b p h1 h2 h3 h5 hleg
    unfold Reader.read_outputs_trace
    cases h4 : r.get_buffer_data b
    · exact ⟨none, by simp [h1, h2, h3, h4, Res.bind]⟩
    case some slice =>
      cases p <;> cases h6 : out.data_type <;>
        simp_all [legalOutput, Res.bind]
  · intro r h1
    unfold SkinReader.read_inverse_bind_matrices_trace
    simp [h1, Res.bind]
  · intro r acc b h1 h2
    unfold SkinReader.read_inverse_bind_matrices_trace
    cases h3 : r.get_buffer_data b
    · exact ⟨none, by simp [h1, h2, h3, Res.bind]⟩
    case some slice =>
      exact ⟨some ⟨acc, slice⟩, by simp [h1, h2, h3, Res.bind]⟩

/-- Claim C3: when the resolver supplies the output buffer's bytes,
`read_outputs` dispatches on the target property — Translation yields the
`Translations` variant and Scale the `Scales` variant regardless of the
accessor's declared component type, while Rotation and MorphTargetWeights
yield their variant tagged with exactly the accessor's declared component
type for each of I8, U8, I16, U16, F32. -/
theorem claim_C3_output_dispatch (r : Reader) (s : Sampler) (out : Accessor)
    (b : Buffer) (slice : List Nat) (p : Property)
    (h1 : r.channel.sampler = .ok s) (h2 : s.output = .ok out)
    (h3 : out.viewBuffer = .ok b) (h4 : r.get_buffer_data b = some slice)
    (h5 : (r.channel.target).property = .ok p) :
    (p = .translation →
      r.read_outputs = .ok (some (.translations ⟨out, slice⟩))) ∧
    (p = .scale → r.read_outputs = .ok (some (.scales ⟨out, slice⟩))) ∧
    (p = .rotation → out.data_type = .i8 →
      r.read_outputs = .ok (some (.rotations (.i8 ⟨out, slice⟩)))) ∧
    (p = .rotation → out.data_type = .u8 →
      r.read_outputs = .ok (some (.rotations (.u8 ⟨out, slice⟩)))) ∧
    (p = .rotation → out.data_type = .i16 →
      r.read_outputs = .ok (some (.rotations (.i16 ⟨out, slice⟩)))) ∧
    (p = .rotation → out.data_type = .u16 →
      r.read_outputs = .ok (some (.rotations (.u16 ⟨out, slice⟩)))) ∧
    (p = .rotation → out.data_type = .f32 →
      r.read_outputs = .ok (some (.rotations (.f32 ⟨out, slice⟩)))) ∧
    (p = .morphTargetWeights → out.data_type = .i8 →
      r.read_outputs = .ok (some (.morphTargetWeights (.i8 ⟨out, slice⟩)))) ∧
    (p = .morphTargetWeights → out.data_type = .u8 →
      r.read_outputs = .ok (some (.morphTargetWeights (.u8 ⟨out, slice⟩)))) ∧
    (p = .morphTargetWeights → out.data_type = .i16 →
      r.read_outputs = .ok (some (.morphTargetWeights (.i16 ⟨out, slice⟩)))) ∧
    (p = .morphTargetWeights → out.data_type = .u16 →
      r.read_outputs = .ok (some (.morphTargetWeights (.u16 ⟨out, slice⟩)))) ∧
    (p = .morphTargetWeights → out.data_type = .f32 →
      r.read_outputs = .ok (some (.morphTargetWeights (.f32 ⟨out, slice⟩)))) := by
  refine ⟨?_, ?_, ?_, ?_, ?_, ?_, ?_, ?_, ?_, ?_, ?_, ?_⟩ <;>
    intros <;> simp_all [Reader.read_outputs, Res.bind]

/-- Witness for C3: on the concrete example, the translation channel yields
the `Translations` variant over the F32 accessor's bytes, and the
I8-rotation channel yields the I8-tagged `Rotations` variant. -/
theorem claim_C3_output_dispatch_witness :
    (chTransEx.reader getSomeEx).read_outputs =
      .ok (some (.translations ⟨accF32Ex, [1, 2, 3, 4]⟩)) ∧
    (chRotI8Ex.reader getSomeEx).read_outputs =
      .ok (some (.rotations (.i8 ⟨accI8Ex, [1, 2, 3, 4]⟩))) := by
  constructor
  · exact (claim_C3_output_dispatch (chTransEx.reader getSomeEx)
      ⟨animEx, samplerF32⟩ accF32Ex bufEx [1, 2, 3, 4] .translation
      rfl rfl rfl rfl rfl).1 rfl
  · exact (claim_C3_output_dispatch (chRotI8Ex.reader getSomeEx)
      ⟨animEx, samplerI8⟩ accI8Ex bufEx [1, 2, 3, 4] .rotation
      rfl rfl rfl rfl rfl).2.2.1 rfl rfl

/-- Witness for C10: on the example channel the reader is the plain record,
`read_inputs` consults the resolver exactly once on the input accessor's
buffer, and a skin without an inverse-bind-matrices accessor never consults
the resolver. -/
theorem claim_C10_reader_construction_resolver_calls_witness :
    chTransEx.reader getSomeEx = ⟨chTransEx, getSomeEx⟩ ∧
    (∃ v, (chTransEx.reader getSomeEx).read_inputs_trace =
      .ok (v, [bufEx])) ∧
    (skinNoIbmEx.reader getSomeEx).read_inverse_bind_matrices_trace =
      .ok (none, []) := by
  obtain ⟨h1, _, _, _, h5, _, h7, _⟩ :=
    claim_C10_reader_construction_resolver_calls
  exact ⟨h1 chTransEx getSomeEx,
    h5 (chTransEx.reader getSomeEx) ⟨animEx, samplerF32⟩ accF32Ex bufEx
      rfl rfl rfl,
    h7 (skinNoIbmEx.reader getSomeEx) rfl⟩

/-- Counterexample to C2 as stated: the morph-target-weight channel whose
output accessor declares component type U32 reaches the source's
`unreachable!` arm — `read_outputs` panics instead of returning an explicit
construction-time error value (no error variant even exists in its return
type). -/
theorem claim_C2_counterexample :
    getSomeEx bufEx = some [1, 2, 3, 4] ∧
    (chMorphU32Ex.reader getSomeEx).read_outputs = .panic ∧
    ¬∃ v, (chMorphU32Ex.reader getSomeEx).read_outputs = .ok v := by
  refine ⟨rfl, rfl, ?_⟩
  rintro ⟨v, hv⟩
  rw [show (chMorphU32Ex.reader getSomeEx).read_outputs = .panic from rfl] at hv
  exact Res.noConfusion hv

/-- Claim C2 amended: for a channel whose target property is Rotation or
MorphTargetWeights and whose output accessor's declared component type is
not one of I8, U8, I16, U16, F32 (i.e. is U32), `read_outputs` with bytes
supplied hits the `unreachable!` arm and panics — a defined, deterministic
panic rather than undefined behavior, but not an explicit error value. -/
theorem claim_C2_illegal_component_panics (r : Reader) (s : Sampler)
    (out : Accessor) (b : Buffer) (slice : List Nat) (p : Property)
    (h1 : r.channel.sampler = .ok s) (h2 : s.output = .ok out)
    (h3 : out.viewBuffer = .ok b) (h4 : r.get_buffer_data b = some slice)
    (h5 : (r.channel.target).property = .ok p)
    (h6 : p = .rotation ∨ p = .morphTargetWeights)
    (h7 : out.data_type = .u32) :
    r.read_outputs = .panic := by
  cases h6 <;> simp_all [Reader.read_outputs, Res.bind]

/-- Witness for the amended C2: the U32-rotation channel of the example
document panics. -/
theorem claim_C2_illegal_component_panics_witness :
    (chRotU32Ex.reader getSomeEx).read_outputs = .panic :=
  claim_C2_illegal_component_panics (chRotU32Ex.reader getSomeEx)
    ⟨animEx, samplerU32⟩ ⟨docEx, 1, ⟨0, .u32⟩⟩ bufEx [1, 2, 3, 4] .rotation
    rfl rfl rfl rfl rfl (Or.inl rfl) rfl

/-- Counterexample to C4 as stated: for the U32-rotation channel the
resolver does supply bytes, yet `read_outputs` does not return `Some` of a
typed sequence — it panics. -/
theorem claim_C4_counterexample :
    getSomeEx bufEx = some [1, 2, 3, 4] ∧
    (chRotU32Ex.reader getSomeEx).read_outputs = .panic ∧
    ¬∃ v, (chRotU32Ex.reader getSomeEx).read_outputs = .ok (some v) := by
  refine ⟨rfl, rfl, ?_⟩
  rintro ⟨v, hv⟩
  rw [show (chRotU32Ex.reader getSomeEx).read_outputs = .panic from rfl] at hv
  exact Res.noConfusion hv

/-- Claim C4 amended: for a channel whose sampler, accessor and buffer
lookups succeed and whose target property is a valid enum, `read_inputs`
and `read_outputs` return `None` (not an error) exactly when the resolver
returns no bytes for the respective accessor's buffer; when the resolver
supplies bytes, `read_inputs` returns `Some` of the typed sequence, and
`read_outputs` does so provided the property/component-type combination is
legal — with an illegal combination (Rotation or MorphTargetWeights over
U32) it panics instead. -/
theorem claim_C4_opportunistic_decoding (r : Reader) (s : Sampler)
    (inp out : Accessor) (bi bo : Buffer) (p : Property)
    (h1 : r.channel.sampler = .ok s) (h2 : s.input = .ok inp)
    (h3 : inp.viewBuffer = .ok bi) (h4 : s.output = .ok out)
    (h5 : out.viewBuffer = .ok bo)
    (h6 : (r.channel.target).property = .ok p)
    (h7 : legalOutput p out.data_type = true) :
    (r.read_inputs = .ok none ↔ r.get_buffer_data bi = none) ∧
    (∀ slice, r.get_buffer_data bi = some slice →
      r.read_inputs = .ok (some ⟨inp, slice⟩)) ∧
    (r.read_outputs = .ok none ↔ r.get_buffer_data bo = none) ∧
    (∀ slice, r.get_buffer_data bo = some slice →
      ∃ v, r.read_outputs = .ok (some v)) := by
  have hin : ∀ slice, r.get_buffer_data bi = some slice →
      r.read_inputs = .ok (some ⟨inp, slice⟩) := by
    intro slice hs
    simp [Reader.read_inputs, h1, h2, h3, hs, Res.bind]
  have hout : ∀ slice, r.get_buffer_data bo = some slice →
      ∃ v, r.read_outputs = .ok (some v) := by
    intro slice hs
    cases p <;> cases hdt : out.data_type <;>
      simp_all [legalOutput, Reader.read_outputs, Res.bind]
  refine ⟨?_, hin, ?_, hout⟩
  · constructor
    · intro hnone
      cases hs : r.get_buffer_data bi with
      | none => rfl
      | some slice => rw [hin slice hs] at hnone; simp at hnone
    · intro hs
      simp [Reader.read_inputs, h1, h2, h3, hs, Res.bind]
  · constructor
    · intro hnone
      cases hs : r.get_buffer_data bo with
      | none => rfl
      | some slice =>
        obtain ⟨v, hv⟩ := hout slice hs
        rw [hv] at hnone
        simp at hnone
    · intro hs
      simp [Reader.read_outputs, h1, h4, h5, hs, Res.bind]

/-- Witness for the amended C4: on the translation channel a missing
resolver gives `None` for both reads, and a supplying resolver gives `Some`
for both. -/
theorem claim_C4_opportunistic_decoding_witness :
    (chTransEx.reader getNoneEx).read_inputs = .ok none ∧
    (chTransEx.reader getNoneEx).read_outputs = .ok none ∧
    (chTransEx.reader getSomeEx).read_inputs =
      .ok (some ⟨accF32Ex, [1, 2, 3, 4]⟩) ∧
    (∃ v, (chTransEx.reader getSomeEx).read_outputs = .ok (some v)) := by
  obtain ⟨hi1, hi2, ho1, ho2⟩ := claim_C4_opportunistic_decoding
    (chTransEx.reader getNoneEx) ⟨animEx, samplerF32⟩ accF32Ex accF32Ex
    bufEx bufEx .translation rfl rfl rfl rfl rfl rfl rfl
  obtain ⟨gi1, gi2, go1, go2⟩ := claim_C4_opportunistic_decoding
    (chTransEx.reader getSomeEx) ⟨animEx, samplerF32⟩ accF32Ex accF32Ex
    bufEx bufEx .translation rfl rfl rfl rfl rfl rfl rfl
  exact ⟨hi1.mpr rfl, ho1.mpr rfl, gi2 [1, 2, 3, 4] rfl, go2 [1, 2, 3, 4] rfl⟩

/-- Counterexample to C6 as stated: a skin with no inverse-bind-matrices
accessor and a skin with one whose resolver misses produce the very same
result value `Ok None` — the two outcomes are not distinguishable by callers
from the result, contrary to the claim. -/
theorem claim_C6_counterexample :
    (skinNoIbmEx.reader getSomeEx).read_inverse_bind_matrices = .ok none ∧
    (skinIbmEx.reader getNoneEx).read_inverse_bind_matrices = .ok none ∧
    (skinNoIbmEx.reader getSomeEx).read_inverse_bind_matrices =
      (skinIbmEx.reader getNoneEx).read_inverse_bind_matrices := by
  exact ⟨rfl, rfl, rfl⟩

/-- Claim C6 amended: `read_inverse_bind_matrices` returns `Some(seq)`
exactly when the skin declares an inverse-bind-matrices accessor and the
resolver supplies that accessor's buffer bytes; a skin with no declared
accessor and a declared accessor with a resolver miss both return the same
`None` — the absence state is not distinguishable from a resolver miss
through the result value (callers must consult `Skin::inverse_bind_matrices`
separately). -/
theorem claim_C6_ibm_some_iff_declared_and_supplied :
    (∀ (r : SkinReader) (acc : Accessor) (b : Buffer) (slice : List Nat),
      r.skin.inverse_bind_matrices = .ok (some acc) → acc.viewBuffer = .ok b →
        r.get_buffer_data b = some slice →
          r.read_inverse_bind_matrices = .ok (some ⟨acc, slice⟩)) ∧
    (∀ (r : SkinReader) (acc : Accessor) (b : Buffer),
      r.skin.inverse_bind_matrices = .ok (some acc) → acc.viewBuffer = .ok b →
        r.get_buffer_data b = none →
          r.read_inverse_bind_matrices = .ok none) ∧
    (∀ r : SkinReader, r.skin.inverse_bind_matrices = .ok none →
        r.read_inverse_bind_matrices = .ok none) ∧
    (∀ (r : SkinReader) (it : Iter),
      r.read_inverse_bind_matrices = .ok (some it) →
        r.skin.inverse_bind_matrices = .ok (some it.accessor) ∧
        ∃ b, it.accessor.viewBuffer = .ok b ∧
          r.get_buffer_data b = some it.slice) := by
  refine ⟨?_, ?_, ?_, ?_⟩
  · intro r acc b slice h1 h2 h3
    simp [SkinReader.read_inverse_bind_matrices, h1, h2, h3, Res.bind]
  · intro r acc b h1 h2 h3
    simp [SkinReader.read_inverse_bind_matrices, h1, h2, h3, Res.bind]
  · intro r h1
    simp [SkinReader.read_inverse_bind_matrices, h1, Res.bind]
  · intro r it h
    unfold SkinReader.read_inverse_bind_matrices at h
    cases h1 : r.skin.inverse_bind_matrices <;>
      simp only [h1, Res.bind] at h
    · simp at h
    case ok oacc =>
    cases oacc with
    | none => simp at h
    | some acc =>
      cases h2 : acc.viewBuffer <;> simp only [h2, Res.bind] at h
      · simp at h
      case ok b =>
      cases h3 : r.get_buffer_data b with
      | none => simp [h3] at h
      | some slice =>
        simp only [h3, Res.ok.injEq, Option.some.injEq] at h
        subst h
        exact ⟨rfl, b, h2, h3⟩

/-- Witness for the amended C6: on the example document a declared accessor
with bytes yields `Some`, a resolver miss yields `None`, and the
undeclared-accessor skin yields `None`. -/
theorem claim_C6_ibm_witness :
    (skinIbmEx.reader getSomeEx).read_inverse_bind_matrices =
      .ok (some ⟨accF32Ex, [1, 2, 3, 4]⟩) ∧
    (skinIbmEx.reader getNoneEx).read_inverse_bind_matrices = .ok none ∧
    (skinNoIbmEx.reader getSomeEx).read_inverse_bind_matrices = .ok none := by
  obtain ⟨h1, h2, h3, _⟩ := claim_C6_ibm_some_iff_declared_and_supplied
  exact ⟨h1 (skinIbmEx.reader getSomeEx) accF32Ex bufEx [1, 2, 3, 4] rfl rfl rfl,
    h2 (skinIbmEx.reader getNoneEx) accF32Ex bufEx rfl rfl rfl,
    h3 (skinNoIbmEx.reader getSomeEx) rfl⟩

end GltfSpec
